/-
Verification of the tidesdb-python repository against its specification.

The repository is a ctypes binding around the TidesDB storage engine plus a
pure-Python mock store used by the test suite.  The development below gives a
shallow embedding of:

* the mock store `tests/mock_tidesdb.py` (`MockTidesDB`, `MockTransaction`,
  `MockCursor`) — Python dicts are embedded as association lists with
  Python-dict semantics (update-in-place on existing key, append otherwise;
  all dicts in the mock are built through these operations, so keys stay
  unique);
* the Python wrapper classes of `src/tidesdb/tidesdb.py` (`Transaction`,
  `Iterator`, `TidesDB`, `ColumnFamily`) — each method's guard logic and
  state-flag updates are translated statement by statement, with the return
  code of the underlying C call left as a parameter where the C library's
  behaviour is not determined by the spec;
* the storage-engine behaviour that the binding calls into, where the spec
  pins it down (transaction state machine, iterator validity, commit hooks,
  INI config persistence); such definitions carry a doc comment starting
  with "Modelled from the spec:".
-/

import Mathlib

set_option autoImplicit false

namespace TidesDBVerify

/-! ## Python dict / set embedding -/

/-- Lookup in an association list: the value of the first entry whose key
matches, mirroring Python `d[k]` / `k in d` on dicts with unique keys. -/
def dictGet {V : Type} (d : List (String × V)) (k : String) : Option V :=
  match d with
  | [] => none
  | (k0, v0) :: rest => if k0 = k then some v0 else dictGet rest k

/-- Python `d[k] = v`: overwrite the existing entry in place, else append. -/
def dictSet {V : Type} (d : List (String × V)) (k : String) (v : V) :
    List (String × V) :=
  match d with
  | [] => [(k, v)]
  | (k0, v0) :: rest =>
      if k0 = k then (k, v) :: rest else (k0, v0) :: dictSet rest k v

/-- Python `del d[k]` on a dict with unique keys. -/
def dictDel {V : Type} (d : List (String × V)) (k : String) :
    List (String × V) :=
  d.filter (fun p => p.1 ≠ k)

/-- Python `s.add(k)` on a set, embedded as a duplicate-free list. -/
def setAdd (s : List String) (k : String) : List String :=
  if k ∈ s then s else s ++ [k]

/-! ## Mock store (`tests/mock_tidesdb.py`) -/

/-- The per-column-family configuration dict built by
`MockTidesDB.create_column_family`. -/
structure MockCFConfig where
  flush_threshold : Nat
  max_level : Nat
  probability : ℚ
  compressed : Bool
  compress_algo : String
  bloom_filter : Bool
  deriving DecidableEq

/-- State of `MockTransaction`: a buffered dict of puts and a set of
buffered deletes, scoped to one column family. -/
structure MockTransaction where
  column_family : String
  changes : List (String × String)
  deletes : List String
  deriving DecidableEq

/-- State of `MockTidesDB`: the configs dict, the data dict (column family
name to inner key-value dict), and the open flag. -/
structure MockTidesDB where
  column_families : List (String × MockCFConfig)
  data : List (String × List (String × String))
  is_open : Bool
  deriving DecidableEq

/-- `MockTransaction.put`: buffer the pair in `changes`; `ttl` is ignored by
the mock. -/
def MockTransaction.put (t : MockTransaction) (key value : String)
    (_ttl : Int) : MockTransaction :=
  { t with changes := dictSet t.changes key value }

/-- `MockTransaction.delete`: add the key to the `deletes` set. -/
def MockTransaction.delete (t : MockTransaction) (key : String) :
    MockTransaction :=
  { t with deletes := setAdd t.deletes key }

/-- `MockTransaction.commit`: error if the column family is missing from
`db.data`; otherwise apply every buffered put, then every buffered delete
(each delete guarded by a membership test), to the inner dict. -/
def MockTransaction.commit (t : MockTransaction) (db : MockTidesDB) :
    Except String MockTidesDB :=
  match dictGet db.data t.column_family with
  | none => .error "Column family does not exist"
  | some m =>
      let afterPuts := t.changes.foldl (fun acc p => dictSet acc p.1 p.2) m
      let afterDels := t.deletes.foldl
        (fun acc k => if (dictGet acc k).isSome then dictDel acc k else acc)
        afterPuts
      .ok { db with data := dictSet db.data t.column_family afterDels }

/-- `MockTransaction.rollback`: discard both buffers. -/
def MockTransaction.rollback (t : MockTransaction) : MockTransaction :=
  { t with changes := [], deletes := [] }

/-- `MockTidesDB.put`: guarded direct write into the data dict. -/
def MockTidesDB.put (db : MockTidesDB) (cf key value : String) (_ttl : Int) :
    Except String MockTidesDB :=
  if db.is_open = false then .error "Database is closed"
  else if (dictGet db.column_families cf).isNone then
    .error "Column family does not exist"
  else
    match dictGet db.data cf with
    | none => .error "KeyError"
    | some m => .ok { db with data := dictSet db.data cf (dictSet m key value) }

/-- `MockTidesDB.get`: guarded lookup; a missing key is the error
"Key not found". -/
def MockTidesDB.get (db : MockTidesDB) (cf key : String) :
    Except String String :=
  if db.is_open = false then .error "Database is closed"
  else if (dictGet db.column_families cf).isNone then
    .error "Column family does not exist"
  else
    match dictGet db.data cf with
    | none => .error "KeyError"
    | some m =>
        match dictGet m key with
        | none => .error "Key not found"
        | some v => .ok v

/-- `MockTidesDB.delete`: guarded delete; deleting an absent key is a
no-op. -/
def MockTidesDB.delete (db : MockTidesDB) (cf key : String) :
    Except String MockTidesDB :=
  if db.is_open = false then .error "Database is closed"
  else if (dictGet db.column_families cf).isNone then
    .error "Column family does not exist"
  else
    match dictGet db.data cf with
    | none => .error "KeyError"
    | some m =>
        if (dictGet m key).isSome then
          .ok { db with data := dictSet db.data cf (dictDel m key) }
        else .ok db

/-- State of `MockCursor`: a snapshot of the dict's entry list and an
integer position. -/
structure MockCursor where
  data : List (String × String)
  position : Int
  deriving DecidableEq

/-- `MockDB.cursor_init`-produced cursor starts at position 0. -/
def MockCursor.init (d : List (String × String)) : MockCursor := ⟨d, 0⟩

/-- `MockCursor.next`: error once at (or past) the last index, else step
forward. -/
def MockCursor.next (c : MockCursor) : Except String MockCursor :=
  if c.position ≥ (c.data.length : Int) - 1 then .error "No more items"
  else .ok { c with position := c.position + 1 }

/-- `MockCursor.prev`: error at (or before) index 0, else step backward. -/
def MockCursor.prev (c : MockCursor) : Except String MockCursor :=
  if c.position ≤ 0 then .error "No previous items"
  else .ok { c with position := c.position - 1 }

/-- Shorthand for the delete pass of `MockTransaction.commit`. -/
def applyDeletes (ds : List String) (d : List (String × String)) :
    List (String × String) :=
  ds.foldl (fun acc k => if (dictGet acc k).isSome then dictDel acc k else acc) d

/-- `MockCursor.get`: the entry at the current position when in range. -/
def MockCursor.get (c : MockCursor) : Except String (String × String) :=
  if 0 ≤ c.position ∧ c.position < (c.data.length : Int) then
    match c.data[c.position.toNat]? with
    | some e => .ok e
    | none => .error "Invalid cursor position"
  else .error "Invalid cursor position"

/-- A concrete configuration dict, as `create_column_family` would store. -/
def exampleCFConfig : MockCFConfig :=
  ⟨1024, 12, (1 : ℚ)/4, false, "NO_COMPRESSION", true⟩

/-- A tiny open mock database with one empty column family "cf". -/
def exampleDB : MockTidesDB :=
  { column_families := [("cf", exampleCFConfig)]
    data := [("cf", [])]
    is_open := true }

/-- A mock transaction on "cf" that has buffered the put ("k", "v"). -/
def exampleTxnPut : MockTransaction := ⟨"cf", [("k", "v")], []⟩

/-- A mock transaction on "cf" that has buffered a delete of "k". -/
def exampleTxnDel : MockTransaction := ⟨"cf", [], ["k"]⟩

/-- A fresh mock transaction on "cf" with empty buffers. -/
def exampleTxnEmpty : MockTransaction := ⟨"cf", [], []⟩

/-! ## Error model of the binding (`TidesDBError`, error codes) -/

def TDB_SUCCESS : Int := 0
def TDB_ERR_MEMORY : Int := -1
def TDB_ERR_INVALID_ARGS : Int := -2
def TDB_ERR_NOT_FOUND : Int := -3
def TDB_ERR_IO : Int := -4
def TDB_ERR_CORRUPTION : Int := -5
def TDB_ERR_EXISTS : Int := -6
def TDB_ERR_CONFLICT : Int := -7
def TDB_ERR_TOO_LARGE : Int := -8
def TDB_ERR_MEMORY_LIMIT : Int := -9
def TDB_ERR_INVALID_DB : Int := -10
def TDB_ERR_UNKNOWN : Int := -11
def TDB_ERR_LOCKED : Int := -12

/-- A raised `TidesDBError`: the exception message and its error code. -/
structure TidesDBError where
  msg : String
  code : Int
  deriving DecidableEq

/-- The `error_messages` table inside `TidesDBError.from_code`. -/
def errorMessage (code : Int) : String :=
  if code = TDB_ERR_MEMORY then "memory allocation failed"
  else if code = TDB_ERR_INVALID_ARGS then "invalid arguments"
  else if code = TDB_ERR_NOT_FOUND then "not found"
  else if code = TDB_ERR_IO then "I/O error"
  else if code = TDB_ERR_CORRUPTION then "data corruption"
  else if code = TDB_ERR_EXISTS then "already exists"
  else if code = TDB_ERR_CONFLICT then "transaction conflict"
  else if code = TDB_ERR_TOO_LARGE then "key or value too large"
  else if code = TDB_ERR_MEMORY_LIMIT then "memory limit exceeded"
  else if code = TDB_ERR_INVALID_DB then "invalid database handle"
  else if code = TDB_ERR_UNKNOWN then "unknown error"
  else if code = TDB_ERR_LOCKED then "database is locked"
  else "unknown error"

/-- `TidesDBError.from_code`. -/
def TidesDBError.from_code (code : Int) (context : String) : TidesDBError :=
  if context = "" then
    ⟨errorMessage code ++ " (code: " ++ toString code ++ ")", code⟩
  else
    ⟨context ++ ": " ++ errorMessage code ++ " (code: " ++ toString code ++
      ")", code⟩

/-- A `TidesDBError(message)` raised without a code defaults to
`TDB_ERR_UNKNOWN`. -/
def TidesDBError.plain (msg : String) : TidesDBError := ⟨msg, TDB_ERR_UNKNOWN⟩

/-- Boolean success test on an `Except` outcome. -/
def exceptIsOk {ε α : Type} (e : Except ε α) : Bool :=
  match e with
  | .ok _ => true
  | .error _ => false

/-! ## Engine-side transaction state (spec-modelled) -/

/-- Modelled from the spec: the state machine of the engine transaction
behind the C handle, `active` to `committed` or `aborted`; the C sources are
not part of this repository. -/
inductive CTxnState where
  | active
  | committed
  | aborted
  deriving DecidableEq

/-- Modelled from the spec: `tidesdb_txn_put` buffers a write and succeeds
only while the transaction is active. -/
def tidesdb_txn_put (s : CTxnState) : Int :=
  if s = .active then TDB_SUCCESS else TDB_ERR_INVALID_ARGS

/-- Modelled from the spec: `tidesdb_txn_delete` buffers a tombstone and
succeeds only while the transaction is active. -/
def tidesdb_txn_delete (s : CTxnState) : Int :=
  if s = .active then TDB_SUCCESS else TDB_ERR_INVALID_ARGS

/-- Modelled from the spec: `tidesdb_txn_commit` moves an active
transaction to `committed` and fails on a terminal one. -/
def tidesdb_txn_commit (s : CTxnState) : Int × CTxnState :=
  if s = .active then (TDB_SUCCESS, .committed) else (TDB_ERR_INVALID_ARGS, s)

/-- Modelled from the spec: `tidesdb_txn_rollback` moves an active
transaction to `aborted` and fails on a terminal one. -/
def tidesdb_txn_rollback (s : CTxnState) : Int × CTxnState :=
  if s = .active then (TDB_SUCCESS, .aborted) else (TDB_ERR_INVALID_ARGS, s)

/-- Modelled from the spec: `tidesdb_txn_reset` is legal only from a
terminal state and returns the transaction to `active`. -/
def tidesdb_txn_reset (s : CTxnState) : Int × CTxnState :=
  if s = .active then (TDB_ERR_INVALID_ARGS, s) else (TDB_SUCCESS, .active)

/-! ## Python `Transaction` wrapper (`tidesdb.py` lines 993–1205) -/

/-- The Python-visible state of a `Transaction` object: the `_closed` and
`_committed` flags, and the engine state behind the `_txn` pointer. -/
structure Transaction where
  closed : Bool
  committed : Bool
  cstate : CTxnState
  deriving DecidableEq

/-- `Transaction.put`: guard on `_closed`, then `_committed`, then the C
call; the key, value and ttl play no role in the control flow modelled
here. -/
def Transaction.put (t : Transaction) : Except TidesDBError Transaction :=
  if t.closed then .error (TidesDBError.plain "Transaction is closed")
  else if t.committed then
    .error (TidesDBError.plain "Transaction already committed")
  else
    if tidesdb_txn_put t.cstate ≠ TDB_SUCCESS then
      .error (TidesDBError.from_code (tidesdb_txn_put t.cstate)
        "failed to put key-value pair")
    else .ok t

/-- `Transaction.delete`: same guards as put, then the C delete call. -/
def Transaction.delete (t : Transaction) : Except TidesDBError Transaction :=
  if t.closed then .error (TidesDBError.plain "Transaction is closed")
  else if t.committed then
    .error (TidesDBError.plain "Transaction already committed")
  else
    if tidesdb_txn_delete t.cstate ≠ TDB_SUCCESS then
      .error (TidesDBError.from_code (tidesdb_txn_delete t.cstate)
        "failed to delete key")
    else .ok t

/-- `Transaction.get`: only the `_closed` flag is checked before the C
call; `cres` is the return code of `tidesdb_txn_get`, whose behaviour the
spec leaves open, so it stays a parameter. -/
def Transaction.get (t : Transaction) (cres : Int) :
    Except TidesDBError Transaction :=
  if t.closed then .error (TidesDBError.plain "Transaction is closed")
  else if cres ≠ TDB_SUCCESS then
    .error (TidesDBError.from_code cres "failed to get value")
  else .ok t

/-- `Transaction.commit`: guards, C call, and only on success set the
`_committed` flag. -/
def Transaction.commit (t : Transaction) : Except TidesDBError Transaction :=
  if t.closed then .error (TidesDBError.plain "Transaction is closed")
  else if t.committed then
    .error (TidesDBError.plain "Transaction already committed")
  else
    if (tidesdb_txn_commit t.cstate).1 ≠ TDB_SUCCESS then
      .error (TidesDBError.from_code (tidesdb_txn_commit t.cstate).1
        "failed to commit transaction")
    else .ok { t with committed := true, cstate := (tidesdb_txn_commit t.cstate).2 }

/-- `Transaction.rollback`: guards and C call; the source sets no Python
flag on success, so only the engine state changes. -/
def Transaction.rollback (t : Transaction) : Except TidesDBError Transaction :=
  if t.closed then .error (TidesDBError.plain "Transaction is closed")
  else if t.committed then
    .error (TidesDBError.plain "Transaction already committed")
  else
    if (tidesdb_txn_rollback t.cstate).1 ≠ TDB_SUCCESS then
      .error (TidesDBError.from_code (tidesdb_txn_rollback t.cstate).1
        "failed to rollback transaction")
    else .ok { t with cstate := (tidesdb_txn_rollback t.cstate).2 }

/-- `Transaction.reset`: only the `_closed` guard, then the C reset, and on
success the `_committed` flag is cleared; the new isolation level does not
affect the state machine. -/
def Transaction.reset (t : Transaction) (_isolation : Int) :
    Except TidesDBError Transaction :=
  if t.closed then .error (TidesDBError.plain "Transaction is closed")
  else
    if (tidesdb_txn_reset t.cstate).1 ≠ TDB_SUCCESS then
      .error (TidesDBError.from_code (tidesdb_txn_reset t.cstate).1
        "failed to reset transaction")
    else .ok { t with committed := false, cstate := (tidesdb_txn_reset t.cstate).2 }

/-- `Transaction.savepoint`: guards on `_closed` and `_committed`; the C
return code stays a parameter. -/
def Transaction.savepoint (t : Transaction) (cres : Int) :
    Except TidesDBError Transaction :=
  if t.closed then .error (TidesDBError.plain "Transaction is closed")
  else if t.committed then
    .error (TidesDBError.plain "Transaction already committed")
  else if cres ≠ TDB_SUCCESS then
    .error (TidesDBError.from_code cres "failed to create savepoint")
  else .ok t

/-- `Transaction.rollback_to_savepoint`: same guard structure as
`savepoint`. -/
def Transaction.rollback_to_savepoint (t : Transaction) (cres : Int) :
    Except TidesDBError Transaction :=
  if t.closed then .error (TidesDBError.plain "Transaction is closed")
  else if t.committed then
    .error (TidesDBError.plain "Transaction already committed")
  else if cres ≠ TDB_SUCCESS then
    .error (TidesDBError.from_code cres "failed to rollback to savepoint")
  else .ok t

/-- `Transaction.release_savepoint`: same guard structure as
`savepoint`. -/
def Transaction.release_savepoint (t : Transaction) (cres : Int) :
    Except TidesDBError Transaction :=
  if t.closed then .error (TidesDBError.plain "Transaction is closed")
  else if t.committed then
    .error (TidesDBError.plain "Transaction already committed")
  else if cres ≠ TDB_SUCCESS then
    .error (TidesDBError.from_code cres "failed to release savepoint")
  else .ok t

/-- `Transaction.new_iterator`: only the `_closed` flag is checked before
the C call. -/
def Transaction.new_iterator (t : Transaction) (cres : Int) :
    Except TidesDBError Unit :=
  if t.closed then .error (TidesDBError.plain "Transaction is closed")
  else if cres ≠ TDB_SUCCESS then
    .error (TidesDBError.from_code cres "failed to create iterator")
  else .ok ()

/-- `Transaction.close`: frees the handle once; a second close is a silent
no-op (`tidesdb_txn_free` returns void, so no error path exists). -/
def Transaction.close (t : Transaction) : Transaction :=
  if t.closed = false then { t with closed := true } else t

/-- The write-or-terminate operations of claim C2. -/
inductive TxnWriteOp where
  | putOp
  | deleteOp
  | commitOp
  | rollbackOp
  deriving DecidableEq

/-- Dispatch a `TxnWriteOp` to the corresponding `Transaction` method. -/
def Transaction.applyWrite (t : Transaction) (op : TxnWriteOp) :
    Except TidesDBError Transaction :=
  match op with
  | .putOp => t.put
  | .deleteOp => t.delete
  | .commitOp => t.commit
  | .rollbackOp => t.rollback

/-- A freshly begun transaction: open, not committed, engine-active. -/
def activeTxn : Transaction := ⟨false, false, .active⟩

/-- The transaction state right after a successful commit. -/
def committedTxn : Transaction := ⟨false, true, .committed⟩

/-- The transaction state right after a successful rollback: the source
leaves `_committed` false, only the engine state is aborted. -/
def abortedTxn : Transaction := ⟨false, false, .aborted⟩

/-! ## Engine-side iterator (spec-modelled) -/

/-- Modelled from the spec: the engine iterator is an ordered run of
(key, value) entries with an integer position; any position outside the
range is the invalid terminal state ("invalid state is not an error but a
terminal condition"). -/
structure CIter where
  entries : List (String × String)
  pos : Int
  deriving DecidableEq

/-- Modelled from the spec: `tidesdb_iter_valid` — the position denotes an
entry. -/
def tidesdb_iter_valid (it : CIter) : Bool :=
  decide (0 ≤ it.pos ∧ it.pos < (it.entries.length : Int))

/-- Modelled from the spec: `tidesdb_iter_next` steps forward; past the
last entry it leaves the iterator invalid and reports `TDB_ERR_NOT_FOUND`
as an end-of-sequence signal, not an error. -/
def tidesdb_iter_next (it : CIter) : Int × CIter :=
  if tidesdb_iter_valid it then
    let it2 : CIter := { it with pos := it.pos + 1 }
    (if tidesdb_iter_valid it2 then TDB_SUCCESS else TDB_ERR_NOT_FOUND, it2)
  else (TDB_ERR_NOT_FOUND, it)

/-- Modelled from the spec: `tidesdb_iter_prev`, symmetric to next. -/
def tidesdb_iter_prev (it : CIter) : Int × CIter :=
  if tidesdb_iter_valid it then
    let it2 : CIter := { it with pos := it.pos - 1 }
    (if tidesdb_iter_valid it2 then TDB_SUCCESS else TDB_ERR_NOT_FOUND, it2)
  else (TDB_ERR_NOT_FOUND, it)

/-- Modelled from the spec: `tidesdb_iter_key` yields the current key only
on a valid position. -/
def tidesdb_iter_key (it : CIter) : Except Int String :=
  if 0 ≤ it.pos ∧ it.pos < (it.entries.length : Int) then
    match it.entries[it.pos.toNat]? with
    | some e => .ok e.1
    | none => .error TDB_ERR_NOT_FOUND
  else .error TDB_ERR_NOT_FOUND

/-- Modelled from the spec: `tidesdb_iter_value` yields the current value
only on a valid position. -/
def tidesdb_iter_value (it : CIter) : Except Int String :=
  if 0 ≤ it.pos ∧ it.pos < (it.entries.length : Int) then
    match it.entries[it.pos.toNat]? with
    | some e => .ok e.2
    | none => .error TDB_ERR_NOT_FOUND
  else .error TDB_ERR_NOT_FOUND

/-- Modelled from the spec: `tidesdb_iter_seek_to_first`. -/
def tidesdb_iter_seek_to_first (it : CIter) : CIter :=
  { it with pos := 0 }

/-- Modelled from the spec: `tidesdb_iter_seek_to_last`. -/
def tidesdb_iter_seek_to_last (it : CIter) : CIter :=
  { it with pos := (it.entries.length : Int) - 1 }

/-- Modelled from the spec: `tidesdb_iter_seek` positions at the first
entry whose key is at least the target, or past the end. -/
def tidesdb_iter_seek (it : CIter) (key : String) : CIter :=
  { it with pos := (it.entries.findIdx (fun e => decide (key ≤ e.1)) : Int) }

/-- Modelled from the spec: `tidesdb_iter_seek_for_prev` positions at the
last entry whose key is at most the target, or before the start. -/
def tidesdb_iter_seek_for_prev (it : CIter) (key : String) : CIter :=
  { it with pos := (it.entries.length : Int) - 1 -
      (it.entries.reverse.findIdx (fun e => decide (e.1 ≤ key)) : Int) }

/-! ## Python `Iterator` wrapper (`tidesdb.py` lines 663–781) -/

/-- The Python-visible state of an `Iterator` object: the `_closed` flag
and the engine iterator behind the `_iter` pointer. -/
structure Iterator where
  closed : Bool
  cit : CIter
  deriving DecidableEq

/-- `Iterator.valid`: a closed iterator is reported invalid without
raising; otherwise the C validity test decides. -/
def Iterator.valid (i : Iterator) : Bool :=
  if i.closed then false else tidesdb_iter_valid i.cit

/-- `Iterator.next`: the closed guard raises, but the C return code is
deliberately ignored — next past the end is not an error in the source. -/
def Iterator.next (i : Iterator) : Except TidesDBError Iterator :=
  if i.closed then .error (TidesDBError.plain "Iterator is closed")
  else .ok { i with cit := (tidesdb_iter_next i.cit).2 }

/-- `Iterator.prev`: symmetric to next, the C return code is ignored. -/
def Iterator.prev (i : Iterator) : Except TidesDBError Iterator :=
  if i.closed then .error (TidesDBError.plain "Iterator is closed")
  else .ok { i with cit := (tidesdb_iter_prev i.cit).2 }

/-- `Iterator.key`: closed guard, then the C key call whose failure is
raised. -/
def Iterator.key (i : Iterator) : Except TidesDBError String :=
  if i.closed then .error (TidesDBError.plain "Iterator is closed")
  else
    match tidesdb_iter_key i.cit with
    | .error code => .error (TidesDBError.from_code code "failed to get key")
    | .ok k => .ok k

/-- `Iterator.value`: closed guard, then the C value call whose failure is
raised. -/
def Iterator.value (i : Iterator) : Except TidesDBError String :=
  if i.closed then .error (TidesDBError.plain "Iterator is closed")
  else
    match tidesdb_iter_value i.cit with
    | .error code => .error (TidesDBError.from_code code "failed to get value")
    | .ok v => .ok v

/-- `Iterator.seek_to_first`: closed guard, then the C seek (whose modelled
return code is success). -/
def Iterator.seek_to_first (i : Iterator) : Except TidesDBError Iterator :=
  if i.closed then .error (TidesDBError.plain "Iterator is closed")
  else .ok { i with cit := tidesdb_iter_seek_to_first i.cit }

/-- `Iterator.seek_to_last`: closed guard, then the C seek. -/
def Iterator.seek_to_last (i : Iterator) : Except TidesDBError Iterator :=
  if i.closed then .error (TidesDBError.plain "Iterator is closed")
  else .ok { i with cit := tidesdb_iter_seek_to_last i.cit }

/-- `Iterator.seek`: closed guard, then the C seek to the first key at
least the target. -/
def Iterator.seek (i : Iterator) (key : String) :
    Except TidesDBError Iterator :=
  if i.closed then .error (TidesDBError.plain "Iterator is closed")
  else .ok { i with cit := tidesdb_iter_seek i.cit key }

/-- `Iterator.seek_for_prev`: closed guard, then the C seek to the last key
at most the target. -/
def Iterator.seek_for_prev (i : Iterator) (key : String) :
    Except TidesDBError Iterator :=
  if i.closed then .error (TidesDBError.plain "Iterator is closed")
  else .ok { i with cit := tidesdb_iter_seek_for_prev i.cit key }

/-- `Iterator.close`: frees the handle once; a second close is a silent
no-op. -/
def Iterator.close (i : Iterator) : Iterator :=
  if i.closed = false then { i with closed := true } else i

/-- The `__next__` protocol loop of `Iterator`, run to a fuel bound: while
`valid()`, yield `(key(), value())` and step with `next()`. -/
def iterCollectForward : Nat → Iterator → List (String × String)
  | 0, _ => []
  | fuel + 1, i =>
      if i.valid then
        match i.key, i.value, i.next with
        | .ok k, .ok v, .ok i2 => (k, v) :: iterCollectForward fuel i2
        | _, _, _ => []
      else []

/-- The same loop stepping backwards with `prev()` from the current
position. -/
def iterCollectBackward : Nat → Iterator → List (String × String)
  | 0, _ => []
  | fuel + 1, i =>
      if i.valid then
        match i.key, i.value, i.prev with
        | .ok k, .ok v, .ok i2 => (k, v) :: iterCollectBackward fuel i2
        | _, _, _ => []
      else []

/-- The three-entry column family of the spec's ordering property. -/
def abcEntries : List (String × String) := [("a", "1"), ("b", "2"), ("c", "3")]

/-! ## Python `TidesDB` wrapper (`tidesdb.py` lines 1208–1621) -/

/-- The Python-visible state of a `TidesDB` object: whether `_db` still
holds the C handle, and the `_closed` flag. -/
structure TidesDB where
  hasDb : Bool
  closed : Bool
  deriving DecidableEq

/-- `TidesDB.close`: only when not yet closed and `_db` is set does it
clear `_db`, set `_closed` and call `tidesdb_close` (code `cres`, raised on
failure); otherwise it returns silently.  The result pairs the new state
with the raised error, if any. -/
def TidesDB.close (h : TidesDB) (cres : Int) : TidesDB × Option TidesDBError :=
  if h.closed = false ∧ h.hasDb = true then
    if cres ≠ TDB_SUCCESS then
      (⟨false, true⟩, some (TidesDBError.from_code cres
        "failed to close database"))
    else (⟨false, true⟩, none)
  else (h, none)

/-- `TidesDB.create_column_family`: closed guard, then the C call. -/
def TidesDB.create_column_family (h : TidesDB) (cres : Int) :
    Except TidesDBError Unit :=
  if h.closed then .error (TidesDBError.plain "Database is closed")
  else if cres ≠ TDB_SUCCESS then
    .error (TidesDBError.from_code cres "failed to create column family")
  else .ok ()

/-- `TidesDB.drop_column_family`: closed guard, then the C call. -/
def TidesDB.drop_column_family (h : TidesDB) (cres : Int) :
    Except TidesDBError Unit :=
  if h.closed then .error (TidesDBError.plain "Database is closed")
  else if cres ≠ TDB_SUCCESS then
    .error (TidesDBError.from_code cres "failed to drop column family")
  else .ok ()

/-- `TidesDB.get_column_family`: closed guard, then the C lookup; a null
pointer result is the not-found error. -/
def TidesDB.get_column_family (h : TidesDB) (name : String) (found : Bool) :
    Except TidesDBError Unit :=
  if h.closed then .error (TidesDBError.plain "Database is closed")
  else if found = false then
    .error ⟨"Column family not found: " ++ name, TDB_ERR_NOT_FOUND⟩
  else .ok ()

/-- `TidesDB.list_column_families`: closed guard, then the C call. -/
def TidesDB.list_column_families (h : TidesDB) (cres : Int) :
    Except TidesDBError Unit :=
  if h.closed then .error (TidesDBError.plain "Database is closed")
  else if cres ≠ TDB_SUCCESS then
    .error (TidesDBError.from_code cres "failed to list column families")
  else .ok ()

/-- `TidesDB.begin_txn`: closed guard, then the C call; a fresh transaction
object has both flags clear and an engine-active state. -/
def TidesDB.begin_txn (h : TidesDB) (cres : Int) :
    Except TidesDBError Transaction :=
  if h.closed then .error (TidesDBError.plain "Database is closed")
  else if cres ≠ TDB_SUCCESS then
    .error (TidesDBError.from_code cres "failed to begin transaction")
  else .ok ⟨false, false, .active⟩

/-- `TidesDB.begin_txn_with_isolation`: as `begin_txn` with an isolation
argument that does not affect the modelled control flow. -/
def TidesDB.begin_txn_with_isolation (h : TidesDB) (_isolation : Int)
    (cres : Int) : Except TidesDBError Transaction :=
  if h.closed then .error (TidesDBError.plain "Database is closed")
  else if cres ≠ TDB_SUCCESS then
    .error (TidesDBError.from_code cres
      "failed to begin transaction with isolation")
  else .ok ⟨false, false, .active⟩

/-- `TidesDB.get_cache_stats`: closed guard, then the C call. -/
def TidesDB.get_cache_stats (h : TidesDB) (cres : Int) :
    Except TidesDBError Unit :=
  if h.closed then .error (TidesDBError.plain "Database is closed")
  else if cres ≠ TDB_SUCCESS then
    .error (TidesDBError.from_code cres "failed to get cache stats")
  else .ok ()

/-- `TidesDB.backup`: closed guard, then the C call. -/
def TidesDB.backup (h : TidesDB) (cres : Int) : Except TidesDBError Unit :=
  if h.closed then .error (TidesDBError.plain "Database is closed")
  else if cres ≠ TDB_SUCCESS then
    .error (TidesDBError.from_code cres "failed to create backup")
  else .ok ()

/-- `TidesDB.checkpoint`: closed guard, then the C call. -/
def TidesDB.checkpoint (h : TidesDB) (cres : Int) : Except TidesDBError Unit :=
  if h.closed then .error (TidesDBError.plain "Database is closed")
  else if cres ≠ TDB_SUCCESS then
    .error (TidesDBError.from_code cres "failed to create checkpoint")
  else .ok ()

/-- `TidesDB.rename_column_family`: closed guard, then the C call. -/
def TidesDB.rename_column_family (h : TidesDB) (cres : Int) :
    Except TidesDBError Unit :=
  if h.closed then .error (TidesDBError.plain "Database is closed")
  else if cres ≠ TDB_SUCCESS then
    .error (TidesDBError.from_code cres "failed to rename column family")
  else .ok ()

/-- `TidesDB.clone_column_family`: closed guard, then the C call. -/
def TidesDB.clone_column_family (h : TidesDB) (cres : Int) :
    Except TidesDBError Unit :=
  if h.closed then .error (TidesDBError.plain "Database is closed")
  else if cres ≠ TDB_SUCCESS then
    .error (TidesDBError.from_code cres "failed to clone column family")
  else .ok ()

/-- `TidesDB.register_comparator`: closed guard, then the C call. -/
def TidesDB.register_comparator (h : TidesDB) (cres : Int) :
    Except TidesDBError Unit :=
  if h.closed then .error (TidesDBError.plain "Database is closed")
  else if cres ≠ TDB_SUCCESS then
    .error (TidesDBError.from_code cres "failed to register comparator")
  else .ok ()

/-- An open database handle. -/
def openDB : TidesDB := ⟨true, false⟩

/-- The handle state after a successful close. -/
def closedDB : TidesDB := ⟨false, true⟩

/-- A closed transaction (any flag history). -/
def closedTxn : Transaction := ⟨true, false, .active⟩

/-- A closed iterator over the three-entry column family. -/
def closedIter : Iterator := ⟨true, ⟨abcEntries, 0⟩⟩

/-! ## Commit hook (`ColumnFamily.set_commit_hook`) -/

/-- Outcome of invoking a Python callback: a returned integer, or a raised
exception. -/
inductive PyCallResult where
  | ret (v : Int)
  | exc
  deriving DecidableEq

/-- The `CommitOp` dataclass: one operation of a committed batch. -/
structure CommitOp where
  key : String
  value : Option String
  ttl : Int
  is_delete : Bool
  deriving DecidableEq

/-- The `c_hook` closure inside `ColumnFamily.set_commit_hook`: call the
user callback on the batch; any exception it raises is caught at the
boundary and converted to the return value -1, never propagated. -/
def c_hook (callback : List CommitOp → Nat → PyCallResult)
    (ops : List CommitOp) (commit_seq : Nat) : Int :=
  match callback ops commit_seq with
  | .ret v => v
  | .exc => -1

/-- Application of one committed operation to a column family's contents. -/
def applyCommitOp (s : List (String × String)) (op : CommitOp) :
    List (String × String) :=
  if op.is_delete then dictDel s op.key else dictSet s op.key (op.value.getD "")

/-- The observable outcome of a commit: the column family contents, whether
the batch committed, and whether a hook warning was logged. -/
structure CommitOutcome where
  store : List (String × String)
  committed : Bool
  hookWarningLogged : Bool
  deriving DecidableEq

/-- Modelled from the spec: the engine applies the committed batch, then
invokes the registered hook synchronously; a non-zero hook return is logged
as a warning but the commit stands and is never rolled back. -/
def engineCommitWithHook (s : List (String × String)) (batch : List CommitOp)
    (hookResult : Int) : CommitOutcome :=
  { store := batch.foldl applyCommitOp s
    committed := true
    hookWarningLogged := hookResult ≠ 0 }

/-- A hook callback that always raises. -/
def exampleFailingHook : List CommitOp → Nat → PyCallResult :=
  fun _ _ => .exc

/-- A one-element committed batch. -/
def exampleBatch : List CommitOp := [⟨"k", some "v", -1, false⟩]

/-! ## Column family configuration (`ColumnFamilyConfig`, `_to_c_struct`,
`load_config_from_ini`) -/

/-- The `CompressionAlgorithm` IntEnum. -/
inductive CompressionAlgorithm where
  | no_compression
  | snappy_compression
  | lz4_compression
  | zstd_compression
  | lz4_fast_compression
  deriving DecidableEq

/-- The integer value of a `CompressionAlgorithm` member. -/
def CompressionAlgorithm.toInt : CompressionAlgorithm → Int
  | .no_compression => 0
  | .snappy_compression => 1
  | .lz4_compression => 2
  | .zstd_compression => 3
  | .lz4_fast_compression => 4

/-- `CompressionAlgorithm(i)`: the member with value `i`, if any (the
Python call raises on an unknown value). -/
def CompressionAlgorithm.ofInt (i : Int) : Option CompressionAlgorithm :=
  if i = 0 then some .no_compression
  else if i = 1 then some .snappy_compression
  else if i = 2 then some .lz4_compression
  else if i = 3 then some .zstd_compression
  else if i = 4 then some .lz4_fast_compression
  else none

/-- The `SyncMode` IntEnum. -/
inductive SyncMode where
  | sync_none
  | sync_full
  | sync_interval
  deriving DecidableEq

/-- The integer value of a `SyncMode` member. -/
def SyncMode.toInt : SyncMode → Int
  | .sync_none => 0
  | .sync_full => 1
  | .sync_interval => 2

/-- `SyncMode(i)`: the member with value `i`, if any. -/
def SyncMode.ofInt (i : Int) : Option SyncMode :=
  if i = 0 then some .sync_none
  else if i = 1 then some .sync_full
  else if i = 2 then some .sync_interval
  else none

/-- The `IsolationLevel` IntEnum. -/
inductive IsolationLevel where
  | read_uncommitted
  | read_committed
  | repeatable_read
  | snapshot
  | serializable
  deriving DecidableEq

/-- The integer value of an `IsolationLevel` member. -/
def IsolationLevel.toInt : IsolationLevel → Int
  | .read_uncommitted => 0
  | .read_committed => 1
  | .repeatable_read => 2
  | .snapshot => 3
  | .serializable => 4

/-- `IsolationLevel(i)`: the member with value `i`, if any. -/
def IsolationLevel.ofInt (i : Int) : Option IsolationLevel :=
  if i = 0 then some .read_uncommitted
  else if i = 1 then some .read_committed
  else if i = 2 then some .repeatable_read
  else if i = 3 then some .snapshot
  else if i = 4 then some .serializable
  else none

/-- Storing a Python int into an unsigned 64-bit ctypes field
(`c_size_t`, `c_uint64`). -/
def wrap64 (n : Nat) : Nat := n % 2 ^ 64

/-- Storing a Python int into a signed 32-bit ctypes field (`c_int`). -/
def wrapInt32 (i : Int) : Int := (i + 2 ^ 31) % 2 ^ 32 - 2 ^ 31

/-- The absolute granularity used to model storing a Python float into a
ctypes `c_float`: values in the configured [0, 1] ranges round to the
nearest multiple of 2 to the -24. -/
def prec32 : ℚ := 1 / 16777216

/-- Round to the nearest multiple of the granularity `p`. -/
def roundPrec (p q : ℚ) : ℚ := ((⌊q / p + 1/2⌋ : Int) : ℚ) * p

/-- The byte-level semantics of assigning an encoded string to a
fixed-width ctypes char array, as `_to_c_struct` does: truncate to
`maxLen - 1` bytes and pad with NULs to exactly `maxLen`. -/
def padTruncate (maxLen : Nat) (bs : List Nat) : List Nat :=
  bs.take (maxLen - 1) ++
    List.replicate (maxLen - (bs.take (maxLen - 1)).length) 0

/-- Python `bytes.rstrip(b"\x00")` / `str.rstrip("\x00")` at byte level. -/
def rstripZeros (bs : List Nat) : List Nat :=
  (bs.reverse.dropWhile (fun b => b == 0)).reverse

/-- The `ColumnFamilyConfig` dataclass.  Numeric fields keep their Python
types (unbounded ints; floats modelled as rationals); the comparator name
is kept as its UTF-8 byte sequence. -/
structure ColumnFamilyConfig where
  write_buffer_size : Nat
  level_size_ratio : Nat
  min_levels : Int
  dividing_level_offset : Int
  klog_value_threshold : Nat
  compression_algorithm : CompressionAlgorithm
  enable_bloom_filter : Bool
  bloom_fpr : ℚ
  enable_block_indexes : Bool
  index_sample_ratio : Int
  block_index_prefix_len : Int
  sync_mode : SyncMode
  sync_interval_us : Nat
  comparator_name : List Nat
  skip_list_max_level : Int
  skip_list_probability : ℚ
  default_isolation_level : IsolationLevel
  min_disk_space : Nat
  l1_file_count_trigger : Int
  l0_queue_stall_threshold : Int
  use_btree : Bool
  deriving DecidableEq

/-- The `_CColumnFamilyConfig` ctypes structure.  The cached comparator and
commit-hook pointers are omitted: `_to_c_struct` never sets them and the
INI round trip does not involve them. -/
structure CColumnFamilyConfig where
  name : List Nat
  write_buffer_size : Nat
  level_size_ratio : Nat
  min_levels : Int
  dividing_level_offset : Int
  klog_value_threshold : Nat
  compression_algorithm : Int
  enable_bloom_filter : Int
  bloom_fpr : ℚ
  enable_block_indexes : Int
  index_sample_ratio : Int
  block_index_prefix_len : Int
  sync_mode : Int
  sync_interval_us : Nat
  comparator_name : List Nat
  skip_list_max_level : Int
  skip_list_probability : ℚ
  default_isolation_level : Int
  min_disk_space : Nat
  l1_file_count_trigger : Int
  l0_queue_stall_threshold : Int
  use_btree : Int
  deriving DecidableEq

/-- `ColumnFamilyConfig._to_c_struct(name)`: marshal the dataclass into the
ctypes structure — the name and comparator name are truncated and
NUL-padded into their char arrays (128 and 64 bytes), unsigned fields wrap
to 64 bits, `c_int` fields to signed 32 bits, enums store their integer
value, booleans 1 or 0, the `c_double` bloom fpr is stored exactly and the
`c_float` probability at single precision. -/
def ColumnFamilyConfig.to_c_struct (cfg : ColumnFamilyConfig)
    (name : List Nat) : CColumnFamilyConfig :=
  { name := padTruncate 128 name
    write_buffer_size := wrap64 cfg.write_buffer_size
    level_size_ratio := wrap64 cfg.level_size_ratio
    min_levels := wrapInt32 cfg.min_levels
    dividing_level_offset := wrapInt32 cfg.dividing_level_offset
    klog_value_threshold := wrap64 cfg.klog_value_threshold
    compression_algorithm := wrapInt32 cfg.compression_algorithm.toInt
    enable_bloom_filter := if cfg.enable_bloom_filter then 1 else 0
    bloom_fpr := cfg.bloom_fpr
    enable_block_indexes := if cfg.enable_block_indexes then 1 else 0
    index_sample_ratio := wrapInt32 cfg.index_sample_ratio
    block_index_prefix_len := wrapInt32 cfg.block_index_prefix_len
    sync_mode := wrapInt32 cfg.sync_mode.toInt
    sync_interval_us := wrap64 cfg.sync_interval_us
    comparator_name := padTruncate 64 cfg.comparator_name
    skip_list_max_level := wrapInt32 cfg.skip_list_max_level
    skip_list_probability := roundPrec prec32 cfg.skip_list_probability
    default_isolation_level := wrapInt32 cfg.default_isolation_level.toInt
    min_disk_space := wrap64 cfg.min_disk_space
    l1_file_count_trigger := wrapInt32 cfg.l1_file_count_trigger
    l0_queue_stall_threshold := wrapInt32 cfg.l0_queue_stall_threshold
    use_btree := if cfg.use_btree then 1 else 0 }

/-- The dataclass construction shared by `load_config_from_ini` (lines
638-660), `default_column_family_config` and `get_stats`: read every field
back from the ctypes structure, interpreting enum values (a Python
`ValueError` on an unknown value is the `none` case), booleans as non-zero
tests, and the comparator name with trailing NULs stripped. -/
def configFromCStruct (c : CColumnFamilyConfig) : Option ColumnFamilyConfig :=
  match CompressionAlgorithm.ofInt c.compression_algorithm,
      SyncMode.ofInt c.sync_mode,
      IsolationLevel.ofInt c.default_isolation_level with
  | some ca, some sm, some il =>
      some { write_buffer_size := c.write_buffer_size
             level_size_ratio := c.level_size_ratio
             min_levels := c.min_levels
             dividing_level_offset := c.dividing_level_offset
             klog_value_threshold := c.klog_value_threshold
             compression_algorithm := ca
             enable_bloom_filter := decide (c.enable_bloom_filter ≠ 0)
             bloom_fpr := c.bloom_fpr
             enable_block_indexes := decide (c.enable_block_indexes ≠ 0)
             index_sample_ratio := c.index_sample_ratio
             block_index_prefix_len := c.block_index_prefix_len
             sync_mode := sm
             sync_interval_us := c.sync_interval_us
             comparator_name := rstripZeros c.comparator_name
             skip_list_max_level := c.skip_list_max_level
             skip_list_probability := c.skip_list_probability
             default_isolation_level := il
             min_disk_space := c.min_disk_space
             l1_file_count_trigger := c.l1_file_count_trigger
             l0_queue_stall_threshold := c.l0_queue_stall_threshold
             use_btree := decide (c.use_btree ≠ 0) }
  | _, _, _ => none

/-- Decimal text of a natural number, as the digit list the INI file
records. -/
def encNat (n : Nat) : List Nat := Nat.digits 10 n

/-- Parse the decimal digit list back. -/
def decNat (ds : List Nat) : Nat := Nat.ofDigits 10 ds

/-- Decimal text of an integer: a sign and the digit list. -/
def encInt (i : Int) : Bool × List Nat := (decide (i < 0), encNat i.natAbs)

/-- Parse the signed decimal text back. -/
def decInt (p : Bool × List Nat) : Int :=
  if p.1 then -((decNat p.2 : Nat) : Int) else ((decNat p.2 : Nat) : Int)

/-- Fixed-point decimal text of a float, written with six decimal places
(the value rounded to the nearest millionth, kept as a scaled integer). -/
def encFixed (q : ℚ) : Bool × List Nat := encInt ⌊q * 1000000 + 1/2⌋

/-- Parse the six-decimal fixed-point text back. -/
def decFixed (p : Bool × List Nat) : ℚ := ((decInt p : Int) : ℚ) / 1000000

/-- Modelled from the spec: `tidesdb_cf_config_save_to_ini` followed by
`tidesdb_cf_config_load_from_ini` on the same path and section (C library,
not in this repository; the spec specifies "a plain key=value text format
under a section named for the column family").  Every integer field is
written as decimal text and parsed back; the two float fields are written
with six decimal places, and on load the single-precision field passes
through a `c_float` again; the char-array strings are written up to their
first NUL and re-padded on load. -/
def iniSaveLoad (c : CColumnFamilyConfig) : CColumnFamilyConfig :=
  { name := padTruncate 128 (c.name.takeWhile (fun b => b != 0))
    write_buffer_size := decNat (encNat c.write_buffer_size)
    level_size_ratio := decNat (encNat c.level_size_ratio)
    min_levels := decInt (encInt c.min_levels)
    dividing_level_offset := decInt (encInt c.dividing_level_offset)
    klog_value_threshold := decNat (encNat c.klog_value_threshold)
    compression_algorithm := decInt (encInt c.compression_algorithm)
    enable_bloom_filter := decInt (encInt c.enable_bloom_filter)
    bloom_fpr := decFixed (encFixed c.bloom_fpr)
    enable_block_indexes := decInt (encInt c.enable_block_indexes)
    index_sample_ratio := decInt (encInt c.index_sample_ratio)
    block_index_prefix_len := decInt (encInt c.block_index_prefix_len)
    sync_mode := decInt (encInt c.sync_mode)
    sync_interval_us := decNat (encNat c.sync_interval_us)
    comparator_name := padTruncate 64 (c.comparator_name.takeWhile
      (fun b => b != 0))
    skip_list_max_level := decInt (encInt c.skip_list_max_level)
    skip_list_probability := roundPrec prec32
      (decFixed (encFixed c.skip_list_probability))
    default_isolation_level := decInt (encInt c.default_isolation_level)
    min_disk_space := decNat (encNat c.min_disk_space)
    l1_file_count_trigger := decInt (encInt c.l1_file_count_trigger)
    l0_queue_stall_threshold := decInt (encInt c.l0_queue_stall_threshold)
    use_btree := decInt (encInt c.use_btree) }

/-- `save_config_to_ini(path, cf_name, config)` followed by
`load_config_from_ini(path, cf_name)`: marshal through `_to_c_struct`,
write and re-read the INI text, and rebuild the dataclass. -/
def save_then_load_config (cfg : ColumnFamilyConfig) (cf_name : List Nat) :
    Option ColumnFamilyConfig :=
  configFromCStruct (iniSaveLoad (cfg.to_c_struct cf_name))

/-- The default column family configuration of the dataclass (the
comparator name "memcmp" as bytes). -/
def defaultCFConfig : ColumnFamilyConfig :=
  { write_buffer_size := 64 * 1024 * 1024
    level_size_ratio := 10
    min_levels := 5
    dividing_level_offset := 2
    klog_value_threshold := 512
    compression_algorithm := .lz4_compression
    enable_bloom_filter := true
    bloom_fpr := 1 / 100
    enable_block_indexes := true
    index_sample_ratio := 1
    block_index_prefix_len := 16
    sync_mode := .sync_interval
    sync_interval_us := 128000
    comparator_name := [109, 101, 109, 99, 109, 112]
    skip_list_max_level := 12
    skip_list_probability := 1 / 4
    default_isolation_level := .read_committed
    min_disk_space := 100 * 1024 * 1024
    l1_file_count_trigger := 4
    l0_queue_stall_threshold := 20
    use_btree := false }

end TidesDBVerify

namespace TidesDBVerify

/-! ## Dict lemmas -/

theorem dictGet_dictSet_self {V : Type} (d : List (String × V)) (k : String)
    (v : V) : dictGet (dictSet d k v) k = some v := by
  induction d with
  | nil => simp [dictGet, dictSet]
  | cons hd tl ih =>
      obtain ⟨k0, v0⟩ := hd
      by_cases h : k0 = k <;> simp [dictGet, dictSet, h, ih]

theorem dictGet_dictSet_ne {V : Type} (d : List (String × V)) (k k' : String)
    (v : V) (h : k' ≠ k) : dictGet (dictSet d k' v) k = dictGet d k := by
  induction d with
  | nil => simp [dictGet, dictSet, h]
  | cons hd tl ih =>
      obtain ⟨k0, v0⟩ := hd
      by_cases h0 : k0 = k'
      · subst h0
        simp [dictGet, dictSet, h]
      · simp [dictGet, dictSet, h0, ih]

theorem dictGet_dictDel_self {V : Type} (d : List (String × V)) (k : String) :
    dictGet (dictDel d k) k = none := by
  induction d with
  | nil => simp [dictGet, dictDel]
  | cons hd tl ih =>
      obtain ⟨k0, v0⟩ := hd
      by_cases h : k0 = k <;> simp_all [dictGet, dictDel, List.filter]

theorem dictGet_dictDel_ne {V : Type} (d : List (String × V)) (k k' : String)
    (h : k' ≠ k) : dictGet (dictDel d k') k = dictGet d k := by
  induction d with
  | nil => simp [dictGet, dictDel]
  | cons hd tl ih =>
      obtain ⟨k0, v0⟩ := hd
      by_cases h0 : k0 = k'
      · subst h0
        simp_all [dictGet, dictDel, List.filter, Ne.symm h]
      · by_cases h1 : k0 = k <;> simp_all [dictGet, dictDel, List.filter]

theorem dictGet_eq_none_of_not_mem {V : Type} (d : List (String × V))
    (k : String) (h : k ∉ d.map Prod.fst) : dictGet d k = none := by
  induction d with
  | nil => simp [dictGet]
  | cons hd tl ih =>
      obtain ⟨k0, v0⟩ := hd
      simp only [List.map_cons, List.mem_cons] at h
      push_neg at h
      simp [dictGet, Ne.symm h.1, ih h.2]

end TidesDBVerify

namespace TidesDBVerify

/-! ## Lemmas about the commit folds -/

theorem dictGet_foldl_dictSet_of_none {V : Type} (l : List (String × V))
    (d : List (String × V)) (k : String) (hl : dictGet l k = none) :
    dictGet (l.foldl (fun acc p => dictSet acc p.1 p.2) d) k = dictGet d k := by
  induction l generalizing d with
  | nil => rfl
  | cons hd tl ih =>
      obtain ⟨k0, v0⟩ := hd
      simp only [dictGet] at hl
      by_cases h0 : k0 = k
      · simp [h0] at hl
      · simp only [List.foldl_cons]
        rw [ih _ (by simpa [h0] using hl), dictGet_dictSet_ne _ _ _ _ h0]

theorem dictGet_foldl_dictSet_of_mem {V : Type} (l : List (String × V))
    (d : List (String × V)) (k : String) (v : V)
    (hnd : (l.map Prod.fst).Nodup) (hl : dictGet l k = some v) :
    dictGet (l.foldl (fun acc p => dictSet acc p.1 p.2) d) k = some v := by
  induction l generalizing d with
  | nil => simp [dictGet] at hl
  | cons hd tl ih =>
      obtain ⟨k0, v0⟩ := hd
      simp only [List.map_cons, List.nodup_cons] at hnd
      simp only [dictGet] at hl
      by_cases h0 : k0 = k
      · subst h0
        have hv : v0 = v := by simpa using hl
        subst hv
        have htl : dictGet tl k0 = none :=
          dictGet_eq_none_of_not_mem tl k0 hnd.1
        simp only [List.foldl_cons]
        rw [dictGet_foldl_dictSet_of_none _ _ _ htl, dictGet_dictSet_self]
      · simp only [if_neg h0] at hl
        simpa using ih _ hnd.2 hl

theorem dictGet_applyDeletes_of_not_mem (ds : List String)
    (d : List (String × String)) (k : String) (hk : k ∉ ds) :
    dictGet (applyDeletes ds d) k = dictGet d k := by
  induction ds generalizing d with
  | nil => rfl
  | cons k0 tl ih =>
      simp only [List.mem_cons] at hk
      push_neg at hk
      simp only [applyDeletes, List.foldl_cons]
      rw [show (tl.foldl (fun acc k =>
            if (dictGet acc k).isSome then dictDel acc k else acc)
            (if (dictGet d k0).isSome then dictDel d k0 else d)) =
          applyDeletes tl (if (dictGet d k0).isSome then dictDel d k0 else d)
        from rfl, ih _ hk.2]
      by_cases h : (dictGet d k0).isSome
      · simp [h, dictGet_dictDel_ne _ _ _ (Ne.symm hk.1)]
      · simp [h]

theorem dictGet_applyDeletes_of_mem (ds : List String)
    (d : List (String × String)) (k : String) (hk : k ∈ ds) :
    dictGet (applyDeletes ds d) k = none := by
  induction ds generalizing d with
  | nil => simp at hk
  | cons k0 tl ih =>
      simp only [applyDeletes, List.foldl_cons]
      by_cases hr : k ∈ tl
      · exact ih _ hr
      · have hk0 : k = k0 := by
          rcases List.mem_cons.mp hk with h | h
          · exact h
          · exact absurd h hr
        subst hk0
        have hnone : dictGet
            (if (dictGet d k).isSome then dictDel d k else d) k = none := by
          by_cases h : (dictGet d k).isSome
          · simp [h, dictGet_dictDel_self]
          · simpa [h] using Option.not_isSome_iff_eq_none.mp h
        rw [show (tl.foldl (fun acc k =>
              if (dictGet acc k).isSome then dictDel acc k else acc)
              (if (dictGet d k).isSome then dictDel d k else d)) =
            applyDeletes tl (if (dictGet d k).isSome then dictDel d k else d)
          from rfl, dictGet_applyDeletes_of_not_mem _ _ _ hr, hnone]

theorem mem_setAdd_self (s : List String) (k : String) : k ∈ setAdd s k := by
  by_cases h : k ∈ s <;> simp [setAdd, h]

theorem commit_eq_ok (t : MockTransaction) (db : MockTidesDB)
    (m : List (String × String))
    (hm : dictGet db.data t.column_family = some m) :
    t.commit db = .ok { db with data := (dictSet db.data t.column_family
      (applyDeletes t.deletes
        (t.changes.foldl (fun acc p => dictSet acc p.1 p.2) m))) } := by
  simp [MockTransaction.commit, hm, applyDeletes]

end TidesDBVerify

namespace TidesDBVerify

/-! ## Claim C1: put-then-get round trip -/

/-- C1: for every key and value, performing put and then get within the same
or a later transaction, with no intervening delete of that key (TTL is
ignored by the mock store), returns exactly the value that was put.  First
conjunct: the put is buffered in a transaction whose commit succeeds and a
later get returns the value.  Second conjunct: a direct store-level put
followed by get returns the value. -/
theorem put_then_get_roundtrip
    (db : MockTidesDB) (t : MockTransaction) (k v : String)
    (hopen : db.is_open = true)
    (hcf : (dictGet db.column_families t.column_family).isSome = true)
    (hdata : (dictGet db.data t.column_family).isSome = true)
    (hput : dictGet t.changes k = some v)
    (hnodup : (t.changes.map Prod.fst).Nodup)
    (hnodel : k ∉ t.deletes) :
    (∃ db2, t.commit db = .ok db2 ∧ db2.get t.column_family k = .ok v) ∧
    (∀ ttl : Int, ∃ db2, db.put t.column_family k v ttl = .ok db2 ∧
      db2.get t.column_family k = .ok v) := by
  obtain ⟨m, hm⟩ := Option.isSome_iff_exists.mp hdata
  obtain ⟨cfg, hcfg⟩ := Option.isSome_iff_exists.mp hcf
  constructor
  · refine ⟨_, commit_eq_ok t db m hm, ?_⟩
    have hAfterPuts :
        dictGet (t.changes.foldl (fun acc p => dictSet acc p.1 p.2) m) k =
          some v :=
      dictGet_foldl_dictSet_of_mem _ _ _ _ hnodup hput
    have hAfterDels : dictGet (applyDeletes t.deletes
        (t.changes.foldl (fun acc p => dictSet acc p.1 p.2) m)) k = some v := by
      rw [dictGet_applyDeletes_of_not_mem _ _ _ hnodel]
      exact hAfterPuts
    simp [MockTidesDB.get, hopen, hcfg, dictGet_dictSet_self, hAfterDels]
  · intro ttl
    have hput2 : db.put t.column_family k v ttl =
        .ok { db with data :=
          (dictSet db.data t.column_family (dictSet m k v)) } := by
      simp [MockTidesDB.put, hopen, hcfg, hm]
    refine ⟨_, hput2, ?_⟩
    simp [MockTidesDB.get, hopen, hcfg, dictGet_dictSet_self]

/-- Witness for C1: the round trip at a concrete database, transaction, key
and value. -/
theorem put_then_get_roundtrip_witness :
    exampleDB.is_open = true ∧
    (dictGet exampleDB.column_families exampleTxnPut.column_family).isSome =
      true ∧
    (dictGet exampleDB.data exampleTxnPut.column_family).isSome = true ∧
    dictGet exampleTxnPut.changes "k" = some "v" ∧
    (exampleTxnPut.changes.map Prod.fst).Nodup ∧
    "k" ∉ exampleTxnPut.deletes ∧
    ((∃ db2, exampleTxnPut.commit exampleDB = .ok db2 ∧
        db2.get exampleTxnPut.column_family "k" = .ok "v") ∧
     (∀ ttl : Int, ∃ db2,
        exampleDB.put exampleTxnPut.column_family "k" "v" ttl = .ok db2 ∧
        db2.get exampleTxnPut.column_family "k" = .ok "v")) :=
  ⟨rfl, by decide, by decide, by decide, by decide, by decide,
    put_then_get_roundtrip exampleDB exampleTxnPut "k" "v" rfl (by decide)
      (by decide) (by decide) (by decide) (by decide)⟩

/-! ## Claim C3: tombstone visibility -/

/-- C3: for every key, after a transaction containing a delete of that key
commits, a subsequent get on that column family reports the not-found error
rather than returning any value. -/
theorem delete_commit_get_not_found
    (db : MockTidesDB) (t : MockTransaction) (k : String)
    (hopen : db.is_open = true)
    (hcf : (dictGet db.column_families t.column_family).isSome = true)
    (hdata : (dictGet db.data t.column_family).isSome = true)
    (hdel : k ∈ t.deletes) :
    ∃ db2, t.commit db = .ok db2 ∧
      db2.get t.column_family k = .error "Key not found" := by
  obtain ⟨m, hm⟩ := Option.isSome_iff_exists.mp hdata
  obtain ⟨cfg, hcfg⟩ := Option.isSome_iff_exists.mp hcf
  refine ⟨_, commit_eq_ok t db m hm, ?_⟩
  have hAfterDels : dictGet (applyDeletes t.deletes
      (t.changes.foldl (fun acc p => dictSet acc p.1 p.2) m)) k = none :=
    dictGet_applyDeletes_of_mem _ _ _ hdel
  simp [MockTidesDB.get, hopen, hcfg, dictGet_dictSet_self, hAfterDels]

/-- Witness for C3 at a concrete database and transaction. -/
theorem delete_commit_get_not_found_witness :
    exampleDB.is_open = true ∧
    (dictGet exampleDB.column_families exampleTxnDel.column_family).isSome =
      true ∧
    (dictGet exampleDB.data exampleTxnDel.column_family).isSome = true ∧
    "k" ∈ exampleTxnDel.deletes ∧
    (∃ db2, exampleTxnDel.commit exampleDB = .ok db2 ∧
      db2.get exampleTxnDel.column_family "k" = .error "Key not found") :=
  ⟨rfl, by decide, by decide, by decide,
    delete_commit_get_not_found exampleDB exampleTxnDel "k" rfl (by decide)
      (by decide) (by decide)⟩

/-! ## Claim C9: puts are applied before deletes -/

/-- C9: in the mock store's transaction commit all buffered puts are applied
before all buffered deletes, so a key that is both put and deleted inside
the same transaction is absent after commit, whichever order the put and the
delete were issued in. -/
theorem commit_put_delete_key_absent
    (db : MockTidesDB) (t : MockTransaction) (k v : String) (ttl : Int)
    (hdata : (dictGet db.data t.column_family).isSome = true) :
    (∃ db2, ((t.put k v ttl).delete k).commit db = .ok db2 ∧
      dictGet ((dictGet db2.data t.column_family).getD []) k = none) ∧
    (∃ db2, ((t.delete k).put k v ttl).commit db = .ok db2 ∧
      dictGet ((dictGet db2.data t.column_family).getD []) k = none) := by
  obtain ⟨m, hm⟩ := Option.isSome_iff_exists.mp hdata
  constructor
  · refine ⟨_, commit_eq_ok ((t.put k v ttl).delete k) db m hm, ?_⟩
    simp only [MockTransaction.put, MockTransaction.delete,
      dictGet_dictSet_self, Option.getD_some]
    exact dictGet_applyDeletes_of_mem _ _ _ (mem_setAdd_self _ _)
  · refine ⟨_, commit_eq_ok ((t.delete k).put k v ttl) db m hm, ?_⟩
    simp only [MockTransaction.put, MockTransaction.delete,
      dictGet_dictSet_self, Option.getD_some]
    exact dictGet_applyDeletes_of_mem _ _ _ (mem_setAdd_self _ _)

/-- Witness for C9 at a concrete database and transaction. -/
theorem commit_put_delete_key_absent_witness :
    (dictGet exampleDB.data exampleTxnEmpty.column_family).isSome = true ∧
    ((∃ db2, ((exampleTxnEmpty.put "k" "v" (-1)).delete "k").commit
        exampleDB = .ok db2 ∧
      dictGet ((dictGet db2.data exampleTxnEmpty.column_family).getD [])
        "k" = none) ∧
     (∃ db2, ((exampleTxnEmpty.delete "k").put "k" "v" (-1)).commit
        exampleDB = .ok db2 ∧
      dictGet ((dictGet db2.data exampleTxnEmpty.column_family).getD [])
        "k" = none)) :=
  ⟨by decide,
    commit_put_delete_key_absent exampleDB exampleTxnEmpty "k" "v" (-1)
      (by decide)⟩

end TidesDBVerify

namespace TidesDBVerify

/-! ## Iterator validity lemmas -/

theorem tidesdb_iter_valid_iff (c : CIter) :
    tidesdb_iter_valid c = true ↔
      0 ≤ c.pos ∧ c.pos < (c.entries.length : Int) := by
  simp [tidesdb_iter_valid]

theorem tidesdb_iter_key_invalid (c : CIter)
    (h : ¬(0 ≤ c.pos ∧ c.pos < (c.entries.length : Int))) :
    tidesdb_iter_key c = .error TDB_ERR_NOT_FOUND := by
  simp [tidesdb_iter_key, h]

theorem tidesdb_iter_value_invalid (c : CIter)
    (h : ¬(0 ≤ c.pos ∧ c.pos < (c.entries.length : Int))) :
    tidesdb_iter_value c = .error TDB_ERR_NOT_FOUND := by
  simp [tidesdb_iter_value, h]

/-! ## Claim C2: transaction state machine -/

/-- C2: the transaction state machine is active to committed or aborted: a
successful commit yields the committed state and a successful rollback the
aborted state; in either terminal state every subsequent put, delete,
commit or rollback fails with an error; reset is rejected on an active
transaction, and from either terminal state it returns the transaction to
active, where writes are accepted again. -/
theorem txn_state_machine :
    activeTxn.commit = .ok committedTxn ∧
    activeTxn.rollback = .ok abortedTxn ∧
    (∀ op : TxnWriteOp, exceptIsOk (committedTxn.applyWrite op) = false) ∧
    (∀ op : TxnWriteOp, exceptIsOk (abortedTxn.applyWrite op) = false) ∧
    (∀ iso : Int, committedTxn.reset iso = .ok activeTxn) ∧
    (∀ iso : Int, abortedTxn.reset iso = .ok activeTxn) ∧
    (∀ iso : Int, exceptIsOk (activeTxn.reset iso) = false) ∧
    exceptIsOk activeTxn.put = true := by
  refine ⟨rfl, rfl, ?_, ?_, fun iso => rfl, fun iso => rfl, fun iso => rfl,
    rfl⟩
  · intro op; cases op <;> rfl
  · intro op; cases op <;> rfl

/-! ## Claim C10: committed transaction still accepts reads -/

/-- C10: on a committed-but-not-closed transaction, get and new_iterator
check only the `_closed` flag, so their outcome is exactly the translation
of the C return code; put, delete, commit, rollback and the savepoint
operations are rejected with the already-committed error before the C
library is reached. -/
theorem committed_txn_accepts_reads_rejects_writes :
    (∀ cres : Int, committedTxn.get cres =
      if cres ≠ TDB_SUCCESS then
        .error (TidesDBError.from_code cres "failed to get value")
      else .ok committedTxn) ∧
    (∀ cres : Int, committedTxn.new_iterator cres =
      if cres ≠ TDB_SUCCESS then
        .error (TidesDBError.from_code cres "failed to create iterator")
      else .ok ()) ∧
    committedTxn.put =
      .error (TidesDBError.plain "Transaction already committed") ∧
    committedTxn.delete =
      .error (TidesDBError.plain "Transaction already committed") ∧
    committedTxn.commit =
      .error (TidesDBError.plain "Transaction already committed") ∧
    committedTxn.rollback =
      .error (TidesDBError.plain "Transaction already committed") ∧
    (∀ cres : Int, committedTxn.savepoint cres =
      .error (TidesDBError.plain "Transaction already committed")) ∧
    (∀ cres : Int, committedTxn.rollback_to_savepoint cres =
      .error (TidesDBError.plain "Transaction already committed")) ∧
    (∀ cres : Int, committedTxn.release_savepoint cres =
      .error (TidesDBError.plain "Transaction already committed")) :=
  ⟨fun _ => rfl, fun _ => rfl, rfl, rfl, rfl, rfl, fun _ => rfl,
    fun _ => rfl, fun _ => rfl⟩

/-! ## Claim C4: operations on closed handles -/

/-- C4 counterexample: closing the already-closed database handle is a
silent success — the method returns without error, and the C library is not
even reached (the outcome is the same whatever code a C close would
return) — contradicting the claim that it raises an invalid-state error. -/
theorem close_already_closed_counterexample :
    closedDB.close TDB_SUCCESS = (closedDB, none) ∧
    closedDB.close TDB_ERR_IO = (closedDB, none) :=
  ⟨rfl, rfl⟩

/-- C4 amended: closing an already-closed database, transaction or iterator
handle is a silent idempotent no-op; every other operation on a closed
database or transaction raises the invalid-state error, and on a closed
iterator every operation other than `valid` raises, while `valid` reports
false without raising. -/
theorem closed_handles_raise_invalid_state :
    (∀ cres : Int, closedDB.close cres = (closedDB, none)) ∧
    (∀ cres : Int, closedDB.create_column_family cres =
      .error (TidesDBError.plain "Database is closed")) ∧
    (∀ cres : Int, closedDB.drop_column_family cres =
      .error (TidesDBError.plain "Database is closed")) ∧
    (∀ name : String, ∀ found : Bool, closedDB.get_column_family name found =
      .error (TidesDBError.plain "Database is closed")) ∧
    (∀ cres : Int, closedDB.list_column_families cres =
      .error (TidesDBError.plain "Database is closed")) ∧
    (∀ cres : Int, closedDB.begin_txn cres =
      .error (TidesDBError.plain "Database is closed")) ∧
    (∀ iso cres : Int, closedDB.begin_txn_with_isolation iso cres =
      .error (TidesDBError.plain "Database is closed")) ∧
    (∀ cres : Int, closedDB.get_cache_stats cres =
      .error (TidesDBError.plain "Database is closed")) ∧
    (∀ cres : Int, closedDB.backup cres =
      .error (TidesDBError.plain "Database is closed")) ∧
    (∀ cres : Int, closedDB.checkpoint cres =
      .error (TidesDBError.plain "Database is closed")) ∧
    (∀ cres : Int, closedDB.rename_column_family cres =
      .error (TidesDBError.plain "Database is closed")) ∧
    (∀ cres : Int, closedDB.clone_column_family cres =
      .error (TidesDBError.plain "Database is closed")) ∧
    (∀ cres : Int, closedDB.register_comparator cres =
      .error (TidesDBError.plain "Database is closed")) ∧
    closedTxn.put = .error (TidesDBError.plain "Transaction is closed") ∧
    (∀ cres : Int, closedTxn.get cres =
      .error (TidesDBError.plain "Transaction is closed")) ∧
    closedTxn.delete = .error (TidesDBError.plain "Transaction is closed") ∧
    closedTxn.commit = .error (TidesDBError.plain "Transaction is closed") ∧
    closedTxn.rollback = .error (TidesDBError.plain "Transaction is closed") ∧
    (∀ iso : Int, closedTxn.reset iso =
      .error (TidesDBError.plain "Transaction is closed")) ∧
    (∀ cres : Int, closedTxn.savepoint cres =
      .error (TidesDBError.plain "Transaction is closed")) ∧
    (∀ cres : Int, closedTxn.rollback_to_savepoint cres =
      .error (TidesDBError.plain "Transaction is closed")) ∧
    (∀ cres : Int, closedTxn.release_savepoint cres =
      .error (TidesDBError.plain "Transaction is closed")) ∧
    (∀ cres : Int, closedTxn.new_iterator cres =
      .error (TidesDBError.plain "Transaction is closed")) ∧
    Transaction.close closedTxn = closedTxn ∧
    closedIter.seek_to_first =
      .error (TidesDBError.plain "Iterator is closed") ∧
    closedIter.seek_to_last =
      .error (TidesDBError.plain "Iterator is closed") ∧
    (∀ key : String, closedIter.seek key =
      .error (TidesDBError.plain "Iterator is closed")) ∧
    (∀ key : String, closedIter.seek_for_prev key =
      .error (TidesDBError.plain "Iterator is closed")) ∧
    closedIter.next = .error (TidesDBError.plain "Iterator is closed") ∧
    closedIter.prev = .error (TidesDBError.plain "Iterator is closed") ∧
    closedIter.key = .error (TidesDBError.plain "Iterator is closed") ∧
    closedIter.value = .error (TidesDBError.plain "Iterator is closed") ∧
    (∀ c : CIter, Iterator.valid ⟨true, c⟩ = false) ∧
    Iterator.close closedIter = closedIter :=
  ⟨fun _ => rfl, fun _ => rfl, fun _ => rfl, fun _ _ => rfl, fun _ => rfl,
    fun _ => rfl, fun _ _ => rfl, fun _ => rfl, fun _ => rfl, fun _ => rfl,
    fun _ => rfl, fun _ => rfl, fun _ => rfl, rfl, fun _ => rfl, rfl, rfl,
    rfl, fun _ => rfl, fun _ => rfl, fun _ => rfl, fun _ => rfl,
    fun _ => rfl, rfl, rfl, rfl, fun _ => rfl, fun _ => rfl, rfl, rfl, rfl,
    rfl, fun _ => rfl, rfl⟩

/-! ## Claim C5: stepping past the iterator boundary -/

/-- C5: on an open iterator over a non-empty run positioned at the last
(resp. first) entry, next (resp. prev) raises no error; it leaves the
iterator in the invalid terminal state, where valid() is false and
key()/value() raise the translated not-found error. -/
theorem iter_step_past_boundary
    (i : Iterator) (hopen : i.closed = false)
    (hne : i.cit.entries ≠ []) :
    (i.cit.pos = (i.cit.entries.length : Int) - 1 →
      ∃ i2, i.next = .ok i2 ∧ i2.valid = false ∧
        i2.key = .error (TidesDBError.from_code TDB_ERR_NOT_FOUND
          "failed to get key") ∧
        i2.value = .error (TidesDBError.from_code TDB_ERR_NOT_FOUND
          "failed to get value")) ∧
    (i.cit.pos = 0 →
      ∃ i2, i.prev = .ok i2 ∧ i2.valid = false ∧
        i2.key = .error (TidesDBError.from_code TDB_ERR_NOT_FOUND
          "failed to get key") ∧
        i2.value = .error (TidesDBError.from_code TDB_ERR_NOT_FOUND
          "failed to get value")) := by
  have hn : 0 < (i.cit.entries.length : Int) := by
    exact_mod_cast List.length_pos.mpr hne
  constructor
  · intro hpos
    have hval : tidesdb_iter_valid i.cit = true := by
      rw [tidesdb_iter_valid_iff]
      omega
    have hval2 : tidesdb_iter_valid { i.cit with pos := i.cit.pos + 1 } =
        false := by
      have : ¬(0 ≤ i.cit.pos + 1 ∧
          i.cit.pos + 1 < (i.cit.entries.length : Int)) := by omega
      simp [tidesdb_iter_valid, this]
    have hnext : tidesdb_iter_next i.cit =
        (TDB_ERR_NOT_FOUND, { i.cit with pos := i.cit.pos + 1 }) := by
      simp [tidesdb_iter_next, hval, hval2]
    have hkey := tidesdb_iter_key_invalid { i.cit with pos := i.cit.pos + 1 }
      (by show ¬(0 ≤ i.cit.pos + 1 ∧
            i.cit.pos + 1 < (i.cit.entries.length : Int)); omega)
    have hvalue := tidesdb_iter_value_invalid
      { i.cit with pos := i.cit.pos + 1 }
      (by show ¬(0 ≤ i.cit.pos + 1 ∧
            i.cit.pos + 1 < (i.cit.entries.length : Int)); omega)
    refine ⟨{ i with cit := (tidesdb_iter_next i.cit).2 },
      by simp [Iterator.next, hopen], ?_, ?_, ?_⟩
    · simp [Iterator.valid, hopen, hnext, hval2]
    · simp [Iterator.key, hopen, hnext, hkey]
    · simp [Iterator.value, hopen, hnext, hvalue]
  · intro hpos
    have hval : tidesdb_iter_valid i.cit = true := by
      rw [tidesdb_iter_valid_iff]
      omega
    have hval2 : tidesdb_iter_valid { i.cit with pos := i.cit.pos - 1 } =
        false := by
      simp only [tidesdb_iter_valid, decide_eq_false_iff_not]
      omega
    have hprev : tidesdb_iter_prev i.cit =
        (TDB_ERR_NOT_FOUND, { i.cit with pos := i.cit.pos - 1 }) := by
      simp [tidesdb_iter_prev, hval, hval2]
    have hkey := tidesdb_iter_key_invalid { i.cit with pos := i.cit.pos - 1 }
      (by show ¬(0 ≤ i.cit.pos - 1 ∧
            i.cit.pos - 1 < (i.cit.entries.length : Int)); omega)
    have hvalue := tidesdb_iter_value_invalid
      { i.cit with pos := i.cit.pos - 1 }
      (by show ¬(0 ≤ i.cit.pos - 1 ∧
            i.cit.pos - 1 < (i.cit.entries.length : Int)); omega)
    refine ⟨{ i with cit := (tidesdb_iter_prev i.cit).2 },
      by simp [Iterator.prev, hopen], ?_, ?_, ?_⟩
    · simp [Iterator.valid, hopen, hprev, hval2]
    · simp [Iterator.key, hopen, hprev, hkey]
    · simp [Iterator.value, hopen, hprev, hvalue]

/-- Witness for C5 at concrete iterators over the a,b,c run: next at the
last entry and prev at the first. -/
theorem iter_step_past_boundary_witness :
    (⟨false, ⟨abcEntries, 2⟩⟩ : Iterator).closed = false ∧
    (⟨false, ⟨abcEntries, 2⟩⟩ : Iterator).cit.entries ≠ [] ∧
    (∃ i2, (⟨false, ⟨abcEntries, 2⟩⟩ : Iterator).next = .ok i2 ∧
      i2.valid = false ∧
      i2.key = .error (TidesDBError.from_code TDB_ERR_NOT_FOUND
        "failed to get key") ∧
      i2.value = .error (TidesDBError.from_code TDB_ERR_NOT_FOUND
        "failed to get value")) ∧
    (∃ i2, (⟨false, ⟨abcEntries, 0⟩⟩ : Iterator).prev = .ok i2 ∧
      i2.valid = false ∧
      i2.key = .error (TidesDBError.from_code TDB_ERR_NOT_FOUND
        "failed to get key") ∧
      i2.value = .error (TidesDBError.from_code TDB_ERR_NOT_FOUND
        "failed to get value")) :=
  ⟨rfl, by decide,
    (iter_step_past_boundary ⟨false, ⟨abcEntries, 2⟩⟩ rfl (by decide)).1
      (by decide),
    (iter_step_past_boundary ⟨false, ⟨abcEntries, 0⟩⟩ rfl (by decide)).2
      rfl⟩

end TidesDBVerify

namespace TidesDBVerify

/-! ## Claim C6: commit hook failures are non-fatal -/

/-- C6: for every registered hook callback and committed batch, an
exception raised inside the callback is converted by the `c_hook` boundary
into the return value -1 instead of propagating, and the commit outcome —
the resulting column family contents and the committed flag — is the same
as under a hook that succeeded; the failure surfaces only as a logged
warning. -/
theorem commit_hook_failure_non_fatal
    (callback : List CommitOp → Nat → PyCallResult)
    (ops : List CommitOp) (seq : Nat)
    (s : List (String × String)) (batch : List CommitOp)
    (hexc : callback ops seq = .exc) :
    c_hook callback ops seq = -1 ∧
    (engineCommitWithHook s batch (c_hook callback ops seq)).store =
      (engineCommitWithHook s batch 0).store ∧
    (engineCommitWithHook s batch (c_hook callback ops seq)).committed =
      true := by
  refine ⟨?_, rfl, rfl⟩
  simp [c_hook, hexc]

/-- Witness for C6 with a callback that always raises, on a one-element
batch. -/
theorem commit_hook_failure_non_fatal_witness :
    exampleFailingHook exampleBatch 7 = .exc ∧
    (c_hook exampleFailingHook exampleBatch 7 = -1 ∧
     (engineCommitWithHook [] exampleBatch
        (c_hook exampleFailingHook exampleBatch 7)).store =
       (engineCommitWithHook [] exampleBatch 0).store ∧
     (engineCommitWithHook [] exampleBatch
        (c_hook exampleFailingHook exampleBatch 7)).committed = true) :=
  ⟨rfl, commit_hook_failure_non_fatal exampleFailingHook exampleBatch 7 []
    exampleBatch rfl⟩

/-! ## Claim C7: iterator ordering over a, b, c -/

/-- C7: over a column family holding exactly the keys a, b, c with values
1, 2, 3, the Python iterator protocol yields the entries in exactly the
order a, b, c forward, and stepping with prev() from the last position
yields c, b, a; the mock cursor traverses the same entry list the same way
through its next/prev/get calls. -/
theorem iterator_ordering_abc :
    iterCollectForward 10 ⟨false, ⟨abcEntries, 0⟩⟩ = abcEntries ∧
    iterCollectBackward 10 ⟨false, ⟨abcEntries, 2⟩⟩ =
      [("c", "3"), ("b", "2"), ("a", "1")] ∧
    (MockCursor.init abcEntries).get = .ok ("a", "1") ∧
    (MockCursor.init abcEntries).next = .ok ⟨abcEntries, 1⟩ ∧
    (⟨abcEntries, 1⟩ : MockCursor).get = .ok ("b", "2") ∧
    (⟨abcEntries, 1⟩ : MockCursor).next = .ok ⟨abcEntries, 2⟩ ∧
    (⟨abcEntries, 2⟩ : MockCursor).get = .ok ("c", "3") ∧
    (⟨abcEntries, 2⟩ : MockCursor).prev = .ok ⟨abcEntries, 1⟩ ∧
    (⟨abcEntries, 1⟩ : MockCursor).prev = .ok ⟨abcEntries, 0⟩ :=
  ⟨rfl, rfl, rfl, rfl, rfl, rfl, rfl, rfl, rfl⟩

end TidesDBVerify

namespace TidesDBVerify

/-! ## Round-trip lemmas for the configuration encoding -/

theorem decNat_encNat (n : Nat) : decNat (encNat n) = n :=
  Nat.ofDigits_digits 10 n

theorem decInt_encInt (i : Int) : decInt (encInt i) = i := by
  unfold decInt encInt
  simp only [decNat_encNat]
  by_cases h : i < 0
  · rw [if_pos (by simpa using h)]
    omega
  · rw [if_neg (by simpa using h)]
    omega

theorem abs_decFixed_encFixed (q : ℚ) :
    |decFixed (encFixed q) - q| ≤ 1 / 2000000 := by
  have h1 : ((⌊q * 1000000 + 1/2⌋ : Int) : ℚ) ≤ q * 1000000 + 1/2 :=
    Int.floor_le _
  have h2 : q * 1000000 + 1/2 - 1 < ((⌊q * 1000000 + 1/2⌋ : Int) : ℚ) :=
    Int.sub_one_lt_floor _
  simp only [decFixed, encFixed, decInt_encInt]
  rw [abs_le]
  constructor <;> [linarith; linarith]

theorem abs_roundPrec_sub (p q : ℚ) (hp : 0 < p) :
    |roundPrec p q - q| ≤ p / 2 := by
  have h1 : ((⌊q / p + 1/2⌋ : Int) : ℚ) ≤ q / p + 1/2 := Int.floor_le _
  have h2 : q / p + 1/2 - 1 < ((⌊q / p + 1/2⌋ : Int) : ℚ) :=
    Int.sub_one_lt_floor _
  have hqp : q / p * p = q := div_mul_cancel₀ q (ne_of_gt hp)
  have hm1 := mul_le_mul_of_nonneg_right h1 hp.le
  have hm2 := mul_lt_mul_of_pos_right h2 hp
  rw [add_mul] at hm1
  rw [sub_mul, add_mul] at hm2
  rw [hqp] at hm1 hm2
  rw [roundPrec, abs_le]
  constructor <;> [nlinarith; nlinarith]

theorem wrap64_eq_self (n : Nat) (h : n < 2 ^ 64) : wrap64 n = n :=
  Nat.mod_eq_of_lt h

theorem wrapInt32_eq_self (i : Int) (h1 : -(2 ^ 31) ≤ i)
    (h2 : i < 2 ^ 31) : wrapInt32 i = i := by
  unfold wrapInt32
  omega

theorem compression_ofInt_toInt (e : CompressionAlgorithm) :
    CompressionAlgorithm.ofInt (wrapInt32 e.toInt) = some e := by
  cases e <;> rfl

theorem syncMode_ofInt_toInt (e : SyncMode) :
    SyncMode.ofInt (wrapInt32 e.toInt) = some e := by
  cases e <;> rfl

theorem isolation_ofInt_toInt (e : IsolationLevel) :
    IsolationLevel.ofInt (wrapInt32 e.toInt) = some e := by
  cases e <;> rfl

theorem bool_store_roundtrip (b : Bool) :
    decide ((if b then (1 : Int) else 0) ≠ 0) = b := by
  cases b <;> rfl

theorem padTruncate_eq (maxLen : Nat) (bs : List Nat)
    (h : bs.length ≤ maxLen - 1) :
    padTruncate maxLen bs = bs ++ List.replicate (maxLen - bs.length) 0 := by
  unfold padTruncate
  rw [List.take_of_length_le h]

theorem takeWhileNz_append_zeros (bs : List Nat) (k : Nat)
    (hz : ∀ b ∈ bs, b ≠ 0) :
    (bs ++ List.replicate k 0).takeWhile (fun b => b != 0) = bs := by
  induction bs with
  | nil =>
      simp only [List.nil_append]
      cases k with
      | zero => rfl
      | succ k => simp [List.replicate_succ, List.takeWhile_cons]
  | cons b tl ih =>
      have hb : b ≠ 0 := hz b (List.mem_cons_self b tl)
      simp [List.takeWhile_cons, hb,
        ih (fun x hx => hz x (List.mem_cons_of_mem _ hx))]

theorem dropWhileZeros_replicate_append (k : Nat) (l : List Nat) :
    (List.replicate k 0 ++ l).dropWhile (fun b => b == 0) =
      l.dropWhile (fun b => b == 0) := by
  induction k with
  | zero => rfl
  | succ k ih => simp [List.replicate_succ, List.dropWhile_cons, ih]

theorem dropWhileZeros_of_ne (l : List Nat) (h : ∀ b ∈ l, b ≠ 0) :
    l.dropWhile (fun b => b == 0) = l := by
  cases l with
  | nil => rfl
  | cons b tl => simp [List.dropWhile_cons, h b (List.mem_cons_self b tl)]

theorem rstripZeros_append_zeros (bs : List Nat) (k : Nat)
    (hz : ∀ b ∈ bs, b ≠ 0) :
    rstripZeros (bs ++ List.replicate k 0) = bs := by
  unfold rstripZeros
  rw [List.reverse_append, List.reverse_replicate,
    dropWhileZeros_replicate_append,
    dropWhileZeros_of_ne _ (fun b hb => hz b (List.mem_reverse.mp hb)),
    List.reverse_reverse]

theorem comparator_name_roundtrip (bs : List Nat)
    (hlen : bs.length ≤ 63) (hz : ∀ b ∈ bs, b ≠ 0) :
    rstripZeros (padTruncate 64
      ((padTruncate 64 bs).takeWhile (fun b => b != 0))) = bs := by
  rw [padTruncate_eq 64 bs (by omega), takeWhileNz_append_zeros bs _ hz,
    padTruncate_eq 64 bs (by omega), rstripZeros_append_zeros bs _ hz]

end TidesDBVerify

namespace TidesDBVerify

/-! ## Claim C8: config INI round trip -/

/-- C8: for every column family configuration whose numeric fields fit
their ctypes widths and whose comparator name fits its 64-byte char array
without NUL bytes, `save_config_to_ini` followed by `load_config_from_ini`
on the same path and section reproduces every field: exact equality for the
integer, enum, boolean and string fields, and equality within one millionth
for the two floating-point fields. -/
theorem config_ini_roundtrip (cfg : ColumnFamilyConfig) (cf_name : List Nat)
    (hwbs : cfg.write_buffer_size < 2 ^ 64)
    (hlsr : cfg.level_size_ratio < 2 ^ 64)
    (hkvt : cfg.klog_value_threshold < 2 ^ 64)
    (hsiu : cfg.sync_interval_us < 2 ^ 64)
    (hmds : cfg.min_disk_space < 2 ^ 64)
    (hml1 : -(2 ^ 31) ≤ cfg.min_levels) (hml2 : cfg.min_levels < 2 ^ 31)
    (hdlo1 : -(2 ^ 31) ≤ cfg.dividing_level_offset)
    (hdlo2 : cfg.dividing_level_offset < 2 ^ 31)
    (hisr1 : -(2 ^ 31) ≤ cfg.index_sample_ratio)
    (hisr2 : cfg.index_sample_ratio < 2 ^ 31)
    (hbip1 : -(2 ^ 31) ≤ cfg.block_index_prefix_len)
    (hbip2 : cfg.block_index_prefix_len < 2 ^ 31)
    (hslm1 : -(2 ^ 31) ≤ cfg.skip_list_max_level)
    (hslm2 : cfg.skip_list_max_level < 2 ^ 31)
    (hl11 : -(2 ^ 31) ≤ cfg.l1_file_count_trigger)
    (hl12 : cfg.l1_file_count_trigger < 2 ^ 31)
    (hl01 : -(2 ^ 31) ≤ cfg.l0_queue_stall_threshold)
    (hl02 : cfg.l0_queue_stall_threshold < 2 ^ 31)
    (hnlen : cfg.comparator_name.length ≤ 63)
    (hnz : ∀ b ∈ cfg.comparator_name, b ≠ 0) :
    ∃ cfg2, save_then_load_config cfg cf_name = some cfg2 ∧
      cfg2.write_buffer_size = cfg.write_buffer_size ∧
      cfg2.level_size_ratio = cfg.level_size_ratio ∧
      cfg2.min_levels = cfg.min_levels ∧
      cfg2.dividing_level_offset = cfg.dividing_level_offset ∧
      cfg2.klog_value_threshold = cfg.klog_value_threshold ∧
      cfg2.compression_algorithm = cfg.compression_algorithm ∧
      cfg2.enable_bloom_filter = cfg.enable_bloom_filter ∧
      cfg2.enable_block_indexes = cfg.enable_block_indexes ∧
      cfg2.index_sample_ratio = cfg.index_sample_ratio ∧
      cfg2.block_index_prefix_len = cfg.block_index_prefix_len ∧
      cfg2.sync_mode = cfg.sync_mode ∧
      cfg2.sync_interval_us = cfg.sync_interval_us ∧
      cfg2.comparator_name = cfg.comparator_name ∧
      cfg2.skip_list_max_level = cfg.skip_list_max_level ∧
      cfg2.default_isolation_level = cfg.default_isolation_level ∧
      cfg2.min_disk_space = cfg.min_disk_space ∧
      cfg2.l1_file_count_trigger = cfg.l1_file_count_trigger ∧
      cfg2.l0_queue_stall_threshold = cfg.l0_queue_stall_threshold ∧
      cfg2.use_btree = cfg.use_btree ∧
      |cfg2.bloom_fpr - cfg.bloom_fpr| ≤ 1 / 1000000 ∧
      |cfg2.skip_list_probability - cfg.skip_list_probability| ≤
        1 / 1000000 := by
  have hp32 : (0 : ℚ) < prec32 := by norm_num [prec32]
  refine ⟨{ cfg with
      bloom_fpr := decFixed (encFixed cfg.bloom_fpr)
      skip_list_probability := roundPrec prec32 (decFixed (encFixed
        (roundPrec prec32 cfg.skip_list_probability))) }, ?_, rfl, rfl, rfl,
    rfl, rfl, rfl, rfl, rfl, rfl, rfl, rfl, rfl, rfl, rfl, rfl, rfl, rfl,
    rfl, rfl, ?_, ?_⟩
  · unfold save_then_load_config configFromCStruct iniSaveLoad
      ColumnFamilyConfig.to_c_struct
    simp only [decInt_encInt, decNat_encNat, compression_ofInt_toInt,
      syncMode_ofInt_toInt, isolation_ofInt_toInt]
    simp only [wrap64_eq_self _ hwbs, wrap64_eq_self _ hlsr,
      wrap64_eq_self _ hkvt, wrap64_eq_self _ hsiu, wrap64_eq_self _ hmds,
      wrapInt32_eq_self _ hml1 hml2, wrapInt32_eq_self _ hdlo1 hdlo2,
      wrapInt32_eq_self _ hisr1 hisr2, wrapInt32_eq_self _ hbip1 hbip2,
      wrapInt32_eq_self _ hslm1 hslm2, wrapInt32_eq_self _ hl11 hl12,
      wrapInt32_eq_self _ hl01 hl02, bool_store_roundtrip,
      comparator_name_roundtrip _ hnlen hnz]
  · simp only []
    have := abs_decFixed_encFixed cfg.bloom_fpr
    calc |decFixed (encFixed cfg.bloom_fpr) - cfg.bloom_fpr| ≤ 1 / 2000000 :=
          this
      _ ≤ 1 / 1000000 := by norm_num
  · have e1 := abs_roundPrec_sub prec32 (decFixed (encFixed
      (roundPrec prec32 cfg.skip_list_probability))) hp32
    have e2 := abs_decFixed_encFixed (roundPrec prec32
      cfg.skip_list_probability)
    have e3 := abs_roundPrec_sub prec32 cfg.skip_list_probability hp32
    have t1 := abs_sub_le
      (roundPrec prec32 (decFixed (encFixed
        (roundPrec prec32 cfg.skip_list_probability))))
      (decFixed (encFixed (roundPrec prec32 cfg.skip_list_probability)))
      cfg.skip_list_probability
    have t2 := abs_sub_le
      (decFixed (encFixed (roundPrec prec32 cfg.skip_list_probability)))
      (roundPrec prec32 cfg.skip_list_probability)
      cfg.skip_list_probability
    have hpv : prec32 = 1 / 16777216 := rfl
    simp only []
    linarith

/-- Witness for C8: the round trip at the default configuration and the
section name "cf". -/
theorem config_ini_roundtrip_witness :
    ∃ cfg2, save_then_load_config defaultCFConfig [99, 102] = some cfg2 ∧
      cfg2.write_buffer_size = defaultCFConfig.write_buffer_size ∧
      cfg2.level_size_ratio = defaultCFConfig.level_size_ratio ∧
      cfg2.min_levels = defaultCFConfig.min_levels ∧
      cfg2.dividing_level_offset = defaultCFConfig.dividing_level_offset ∧
      cfg2.klog_value_threshold = defaultCFConfig.klog_value_threshold ∧
      cfg2.compression_algorithm = defaultCFConfig.compression_algorithm ∧
      cfg2.enable_bloom_filter = defaultCFConfig.enable_bloom_filter ∧
      cfg2.enable_block_indexes = defaultCFConfig.enable_block_indexes ∧
      cfg2.index_sample_ratio = defaultCFConfig.index_sample_ratio ∧
      cfg2.block_index_prefix_len = defaultCFConfig.block_index_prefix_len ∧
      cfg2.sync_mode = defaultCFConfig.sync_mode ∧
      cfg2.sync_interval_us = defaultCFConfig.sync_interval_us ∧
      cfg2.comparator_name = defaultCFConfig.comparator_name ∧
      cfg2.skip_list_max_level = defaultCFConfig.skip_list_max_level ∧
      cfg2.default_isolation_level =
        defaultCFConfig.default_isolation_level ∧
      cfg2.min_disk_space = defaultCFConfig.min_disk_space ∧
      cfg2.l1_file_count_trigger = defaultCFConfig.l1_file_count_trigger ∧
      cfg2.l0_queue_stall_threshold =
        defaultCFConfig.l0_queue_stall_threshold ∧
      cfg2.use_btree = defaultCFConfig.use_btree ∧
      |cfg2.bloom_fpr - defaultCFConfig.bloom_fpr| ≤ 1 / 1000000 ∧
      |cfg2.skip_list_probability -
        defaultCFConfig.skip_list_probability| ≤ 1 / 1000000 :=
  config_ini_roundtrip defaultCFConfig [99, 102] (by decide)
    (by decide) (by decide) (by decide) (by decide) (by decide)
    (by decide) (by decide) (by decide) (by decide) (by decide)
    (by decide) (by decide) (by decide) (by decide) (by decide)
    (by decide) (by decide) (by decide) (by decide) (by decide)

end TidesDBVerify
